import Mathlib

/-!
Verification of the `GroundwaterAnalysisService` and `CGWBAPIService` layers
of the Ground-Water monitoring repository (`src/monitoring/services.py`,
`src/monitoring/models.py`).

Embedding conventions:
* Python floats are embedded as rationals (`ℚ`); every constant of the source
  (0.15, 365.25, 0.1, thresholds 20/40/70/80/60) is exact in `ℚ`.
* A `datetime` timestamp is embedded as a rational number of days since an
  arbitrary epoch; `timedelta.days` is the floor of the difference
  (`daysDiff`), matching Python's floor division of the total seconds.
* Python `sorted(..., key=lambda x: x.timestamp)` is a stable sort; it is
  embedded as `List.insertionSort` on the timestamp order, which is stable.
* Python `None` becomes `Option.none`; the truthiness test
  `if not station.well_depth:` is false for both `None` and `0.0`, which the
  embedding reproduces.
* Division in the source is always guarded by a zero test; the guards are
  embedded literally.
-/

namespace GroundWater

/-- One `WaterLevel` reading as used by the analysis routines: a timestamp
(rational days since epoch) and a depth (metres below ground level). -/
structure WaterLevel where
  timestamp : ℚ
  depth : ℚ
deriving DecidableEq

instance : Inhabited WaterLevel := ⟨⟨0, 0⟩⟩

/-- A `DWLRStation` restricted to the fields the verified routines read:
its primary key `station_code`, the optional `well_depth` and the optional
`elevation` (both nullable `FloatField`s in `models.py`). -/
structure Station where
  station_code : String
  well_depth : Option ℚ
  elevation : Option ℚ
deriving DecidableEq

/-- Python `(a - b).days` on datetimes: floor of the difference in days. -/
def daysDiff (a b : ℚ) : ℤ := ⌊a - b⌋

/-- Python `sorted(water_levels, key=lambda x: x.timestamp)`: a stable sort
by timestamp. -/
def sortByTimestamp (l : List WaterLevel) : List WaterLevel :=
  List.insertionSort (fun a b => a.timestamp ≤ b.timestamp) l

/-- The `total_rise` accumulator of `calculate_recharge` (lines 238-245):
sum over consecutive pairs of the sorted readings of the depth change
`sorted_levels[i-1].depth - sorted_levels[i].depth` when strictly positive. -/
def totalRise : List WaterLevel → ℚ
  | a :: b :: rest =>
      (if a.depth - b.depth > 0 then a.depth - b.depth else 0) + totalRise (b :: rest)
  | _ => 0

/-- The `rise_periods` counter of `calculate_recharge`: number of consecutive
pairs with a strictly positive depth decrease. -/
def risePeriods : List WaterLevel → ℕ
  | a :: b :: rest =>
      (if a.depth - b.depth > 0 then 1 else 0) + risePeriods (b :: rest)
  | _ => 0

/-- Return value of `calculate_recharge`. -/
structure RechargeResult where
  estimated_recharge : Option ℚ
  recharge_rate : Option ℚ
deriving DecidableEq

/-- Embedding of `GroundwaterAnalysisService.calculate_recharge` (services.py 219-263). -/
def calculate_recharge (water_levels : List WaterLevel) : RechargeResult :=
  if water_levels.length < 2 then
    { estimated_recharge := none, recharge_rate := none }
  else
    let sorted_levels := sortByTimestamp water_levels
    let specific_yield : ℚ := 15/100
    let estimated_recharge : ℚ :=
      if risePeriods sorted_levels > 0 then totalRise sorted_levels * specific_yield else 0
    let time_span_years : ℚ :=
      ((daysDiff (sorted_levels.getLastD default).timestamp
          (sorted_levels.headD default).timestamp : ℤ) : ℚ) / (1461/4)
    let recharge_rate : ℚ :=
      if time_span_years > 0 then estimated_recharge / time_span_years * 1000 else 0
    { estimated_recharge := some estimated_recharge, recharge_rate := some recharge_rate }

/-- Return value of `calculate_storage`. -/
structure StorageResult where
  current_storage : Option ℚ
  available_storage : Option ℚ
  storage_percentage : Option ℚ
deriving DecidableEq

/-- Embedding of `GroundwaterAnalysisService.calculate_storage` (services.py 265-297).
The guard `if not station.well_depth:` is Python truthiness: it fires on
`None` and on `0.0`. -/
def calculate_storage (station : Station) (current_depth : ℚ) : StorageResult :=
  match station.well_depth with
  | none => { current_storage := none, available_storage := none, storage_percentage := none }
  | some wd =>
    if wd = 0 then
      { current_storage := none, available_storage := none, storage_percentage := none }
    else
      let water_column : ℚ := if wd - current_depth < 0 then 0 else wd - current_depth
      let specific_yield : ℚ := 15/100
      let current_storage := water_column * specific_yield
      let max_storage := wd * specific_yield
      let available_storage := max_storage - current_storage
      let storage_percentage : ℚ :=
        if max_storage > 0 then current_storage / max_storage * 100 else 0
      { current_storage := some current_storage,
        available_storage := some available_storage,
        storage_percentage := some storage_percentage }

/-- The three trend labels of `analyze_trend`. -/
inductive Trend where
  | rising
  | falling
  | stable
deriving DecidableEq

/-- Return value of `analyze_trend`. -/
structure TrendResult where
  trend : Trend
  trend_magnitude : ℚ
deriving DecidableEq

/-- Embedding of `GroundwaterAnalysisService.analyze_trend` (services.py 299-341):
least-squares slope over (day-offset, depth) pairs of the sorted readings,
guarded against a zero denominator, thresholded at |slope * 365.25| = 0.1. -/
def analyze_trend (water_levels : List WaterLevel) : TrendResult :=
  if water_levels.length < 2 then
    { trend := Trend.stable, trend_magnitude := 0 }
  else
    let sorted_levels := sortByTimestamp water_levels
    let n : ℚ := sorted_levels.length
    let depths : List ℚ := sorted_levels.map (fun wl => wl.depth)
    let times : List ℚ := sorted_levels.map (fun wl =>
      ((daysDiff wl.timestamp (sorted_levels.headD default).timestamp : ℤ) : ℚ))
    let sum_t := times.sum
    let sum_d := depths.sum
    let sum_td := ((times.zip depths).map (fun p => p.1 * p.2)).sum
    let sum_t2 := (times.map (fun t => t * t)).sum
    let slope : ℚ :=
      if n * sum_t2 - sum_t * sum_t ≠ 0 then
        (n * sum_td - sum_t * sum_d) / (n * sum_t2 - sum_t * sum_t)
      else 0
    let trend_magnitude := |slope * (1461/4)|
    let trend :=
      if trend_magnitude < 1/10 then Trend.stable
      else if slope < 0 then Trend.rising
      else Trend.falling
    { trend := trend, trend_magnitude := trend_magnitude }

/-- The four alert labels of `determine_alert_status`. -/
inductive Alert where
  | critical
  | warning
  | good
  | normal
deriving DecidableEq

/-- Embedding of `GroundwaterAnalysisService.determine_alert_status` (services.py 343-369).
The fallback `if well_depth:` is Python truthiness (false on `None` and `0.0`). -/
def determine_alert_status (storage_percentage : Option ℚ) (trend : Trend)
    (current_depth : ℚ) (well_depth : Option ℚ) : Alert :=
  match storage_percentage with
  | none =>
    match well_depth with
    | some wd =>
      if wd = 0 then Alert.normal
      else
        let depth_percentage := current_depth / wd * 100
        if depth_percentage > 80 then Alert.critical
        else if depth_percentage > 60 then Alert.warning
        else Alert.normal
    | none => Alert.normal
  | some sp =>
    if sp < 20 then Alert.critical
    else if sp < 40 then Alert.warning
    else if sp > 70 then Alert.good
    else Alert.normal

/-- A persisted `WaterLevel` row (models.py 32-49): station foreign key,
timestamp, depth, derived elevation and data source; unique per
(station, timestamp) by `Meta.unique_together`. -/
structure WLRow where
  station : String
  timestamp : ℚ
  depth : ℚ
  water_level_elevation : Option ℚ
  data_source : String
deriving DecidableEq

/-- The `unique_together` key of a water-level row. -/
def rowKey (r : WLRow) : String × ℚ := (r.station, r.timestamp)

/-- An incoming record of `sync_water_levels` after timestamp parsing and
depth coercion (services.py 178-188). -/
structure WLData where
  timestamp : ℚ
  depth : ℚ
deriving DecidableEq

/-- The `defaults={...}` update applied to an existing row: depth, derived
elevation and data source change; the key fields do not. -/
def applyDefaults (depth : ℚ) (elev : Option ℚ) (x : WLRow) : WLRow :=
  { x with depth := depth, water_level_elevation := elev, data_source := "CGWB_API" }

/-- The row created when no row exists for the key (services.py 195-203). -/
def newRow (station_code : String) (ts depth : ℚ) (elev : Option ℚ) : WLRow :=
  { station := station_code, timestamp := ts, depth := depth,
    water_level_elevation := elev, data_source := "CGWB_API" }

/-- Embedding of `WaterLevel.objects.update_or_create(station=..., timestamp=..., defaults=...)`
(services.py 195-203): update the row with the given key if present, else
append a fresh row; the boolean is Django's `created` flag. -/
def update_or_create (db : List WLRow) (station_code : String) (ts : ℚ)
    (depth : ℚ) (elev : Option ℚ) : List WLRow × Bool :=
  if _h : ∃ x ∈ db, x.station = station_code ∧ x.timestamp = ts then
    (db.map (fun x =>
      if x.station = station_code ∧ x.timestamp = ts then applyDefaults depth elev x
      else x), false)
  else
    (db ++ [newRow station_code ts depth elev], true)

/-- One iteration of the `for data in water_level_data:` loop of
`sync_water_levels` (services.py 178-205), acting on (database, created count).
`if station.elevation:` is Python truthiness. -/
def syncStep (station : Station) (acc : List WLRow × ℕ) (data : WLData) :
    List WLRow × ℕ :=
  let elev : Option ℚ :=
    match station.elevation with
    | some e => if e = 0 then none else some (e - data.depth)
    | none => none
  let r := update_or_create acc.1 station.station_code data.timestamp data.depth elev
  (r.1, if r.2 then acc.2 + 1 else acc.2)

/-- Embedding of `CGWBAPIService.sync_water_levels` (services.py 171-211): fold the sync
step over the batch, returning the final database and the created count. -/
def sync_water_levels (db : List WLRow) (station : Station)
    (water_level_data : List WLData) : List WLRow × ℕ :=
  water_level_data.foldl (syncStep station) (db, 0)

/-- The `unique_together = [['station', 'timestamp']]` invariant of the
`WaterLevel` table (models.py 46): no two rows share a (station, timestamp)
key. -/
def uniquePerStationTimestamp (db : List WLRow) : Prop :=
  (db.map rowKey).Nodup

instance (db : List WLRow) : Decidable (uniquePerStationTimestamp db) :=
  List.nodupDecidable _

/-! Spec-side definitions, written from the claim wording, to be compared
with the code-side embeddings above. -/

/-- Spec-side (claim C1): the sum, over consecutive pairs of a reading list,
of the depth decreases (previous depth minus next depth), counted only when
strictly positive. -/
def consecutivePositiveDecreaseSum (l : List WaterLevel) : ℚ :=
  ((l.zip l.tail).map
    (fun p => if p.1.depth - p.2.depth > 0 then p.1.depth - p.2.depth else 0)).sum

/-- Spec-side (claim C2): the ordinary least-squares slope over the
(day-offset, depth) pairs of a sorted reading list,
`(n·Σtd - Σt·Σd) / (n·Σt² - (Σt)²)`; `ℚ` division is total with `x / 0 = 0`. -/
def olsSlope (sorted_levels : List WaterLevel) : ℚ :=
  let n : ℚ := sorted_levels.length
  let times : List ℚ := sorted_levels.map (fun wl =>
    ((daysDiff wl.timestamp (sorted_levels.headD default).timestamp : ℤ) : ℚ))
  let depths : List ℚ := sorted_levels.map (fun wl => wl.depth)
  (n * ((times.zip depths).map (fun p => p.1 * p.2)).sum - times.sum * depths.sum) /
    (n * (times.map (fun t => t * t)).sum - times.sum * times.sum)

/-- Spec-side (claim C4): the four-way alert lookup on a defined storage
percentage, with each bucket written as the claim states it. -/
def alertOfStorage (sp : ℚ) : Alert :=
  if sp < 20 then Alert.critical
  else if 20 ≤ sp ∧ sp < 40 then Alert.warning
  else if sp > 70 then Alert.good
  else Alert.normal

/-! Theorems. -/

/-- Claim C4: for every defined storage_percentage, `determine_alert_status`
returns exactly the label of the four-way threshold table on
storage_percentage alone: critical when sp < 20, warning when 20 ≤ sp < 40,
good when sp > 70, normal otherwise. -/
theorem determine_alert_status_matches_lookup (sp : ℚ) (trend : Trend)
    (current_depth : ℚ) (well_depth : Option ℚ) :
    determine_alert_status (some sp) trend current_depth well_depth =
      alertOfStorage sp := by
  unfold determine_alert_status alertOfStorage
  dsimp only
  split_ifs with h1 h2 h3 h4 h5 h6 h7 <;> first
    | rfl
    | exact absurd ⟨not_lt.mp h1, h2⟩ h3
    | exact absurd h6.2 h2
    | exact absurd h7.2 h2

/-- Claim C8: the `trend` argument never influences the result of
`determine_alert_status`: two calls equal in every other argument return the
same alert label. -/
theorem determine_alert_status_ignores_trend (sp : Option ℚ) (t1 t2 : Trend)
    (current_depth : ℚ) (well_depth : Option ℚ) :
    determine_alert_status sp t1 current_depth well_depth =
      determine_alert_status sp t2 current_depth well_depth := rfl

/-- Claim C6: for every input list of readings, the trend_magnitude returned
by `analyze_trend` is non-negative. -/
theorem analyze_trend_magnitude_nonneg (water_levels : List WaterLevel) :
    0 ≤ (analyze_trend water_levels).trend_magnitude := by
  unfold analyze_trend
  split_ifs
  · exact le_refl 0
  · exact abs_nonneg _

/-- Claim C5: with fewer than two readings, `calculate_recharge` returns null
for both estimated_recharge and recharge_rate, and `analyze_trend` returns
the default trend 'stable' with trend_magnitude 0. -/
theorem short_input_defaults (water_levels : List WaterLevel)
    (h : water_levels.length < 2) :
    calculate_recharge water_levels =
      { estimated_recharge := none, recharge_rate := none } ∧
    analyze_trend water_levels =
      { trend := Trend.stable, trend_magnitude := 0 } := by
  constructor
  · unfold calculate_recharge
    rw [if_pos h]
  · unfold analyze_trend
    rw [if_pos h]

/-- Witness for claim C5 at the singleton input. -/
theorem short_input_defaults_witness :
    calculate_recharge [⟨0, 5⟩] =
      { estimated_recharge := none, recharge_rate := none } ∧
    analyze_trend [⟨0, 5⟩] =
      { trend := Trend.stable, trend_magnitude := 0 } :=
  short_input_defaults [⟨0, 5⟩] (by norm_num)

/-- Claim C3 counterexample: a station with positive well_depth 10 and
current_depth -10 yields storage_percentage 200, outside [0, 100]; the code
clamps the water column below but never above. -/
theorem storage_percentage_exceeds_100 :
    (calculate_storage ⟨"STN1001", some 10, none⟩ (-10)).storage_percentage =
      some 200 ∧ ¬ ((200 : ℚ) ≤ 100) := by
  constructor
  · unfold calculate_storage
    norm_num
  · norm_num

/-- Claim C3 as amended: for every station with defined positive well_depth
and every non-negative current_depth, the storage_percentage returned by
`calculate_storage` lies in [0, 100]. -/
theorem storage_percentage_in_range (station : Station) (wd current_depth : ℚ)
    (hwd : station.well_depth = some wd) (hpos : 0 < wd)
    (hcd : 0 ≤ current_depth) :
    ∃ sp : ℚ, (calculate_storage station current_depth).storage_percentage =
      some sp ∧ 0 ≤ sp ∧ sp ≤ 100 := by
  unfold calculate_storage
  rw [hwd]
  dsimp only
  rw [if_neg (ne_of_gt hpos)]
  dsimp only
  have hms : (0 : ℚ) < wd * (15/100) := by positivity
  rw [if_pos hms]
  refine ⟨_, rfl, ?_, ?_⟩
  · have hwc : (0 : ℚ) ≤ if wd - current_depth < 0 then 0 else wd - current_depth := by
      split_ifs with h
      · exact le_refl 0
      · linarith
    positivity
  · have hwc : (if wd - current_depth < 0 then 0 else wd - current_depth) ≤ wd := by
      split_ifs with h
      · linarith
      · linarith
    have hdiv : (if wd - current_depth < 0 then 0 else wd - current_depth) * (15/100) /
        (wd * (15/100)) ≤ 1 := by
      rw [div_le_one hms]
      nlinarith
    nlinarith [hdiv]

/-- Witness for the amended claim C3 at well_depth 10, current_depth 4. -/
theorem storage_percentage_in_range_witness :
    ∃ sp : ℚ, (calculate_storage ⟨"STN1001", some 10, none⟩ 4).storage_percentage =
      some sp ∧ 0 ≤ sp ∧ sp ≤ 100 :=
  storage_percentage_in_range ⟨"STN1001", some 10, none⟩ 10 4 rfl
    (by norm_num) (by norm_num)

/-- Helper: the `total_rise` accumulator equals the spec-side consecutive
positive-decrease sum. -/
theorem totalRise_eq_consecutiveSum (l : List WaterLevel) :
    totalRise l = consecutivePositiveDecreaseSum l := by
  induction l with
  | nil => rfl
  | cons a tl ih =>
    cases tl with
    | nil => rfl
    | cons b r =>
      unfold totalRise consecutivePositiveDecreaseSum
      simp only [List.tail_cons, List.zip_cons_cons, List.map_cons, List.sum_cons]
      rw [ih]
      rfl

/-- Helper: when no consecutive pair shows a strictly positive decrease, the
accumulated rise is zero. -/
theorem totalRise_eq_zero_of_risePeriods_eq_zero (l : List WaterLevel)
    (h : risePeriods l = 0) : totalRise l = 0 := by
  induction l with
  | nil => rfl
  | cons a tl ih =>
    cases tl with
    | nil => rfl
    | cons b r =>
      unfold risePeriods at h
      unfold totalRise
      by_cases hc : a.depth - b.depth > 0
      · rw [if_pos hc] at h
        omega
      · rw [if_neg hc] at h ⊢
        rw [ih (by omega)]
        norm_num

/-- Claim C1: with at least two readings, estimated_recharge is the sum over
consecutive pairs of the timestamp-sorted readings of the strictly positive
depth decreases, multiplied by the specific yield 0.15 (hence 0 when no pair
decreases). -/
theorem calculate_recharge_matches_sum (water_levels : List WaterLevel)
    (h : 2 ≤ water_levels.length) :
    (calculate_recharge water_levels).estimated_recharge =
      some (consecutivePositiveDecreaseSum (sortByTimestamp water_levels) * (15/100)) := by
  unfold calculate_recharge
  rw [if_neg (by omega : ¬ water_levels.length < 2)]
  dsimp only
  by_cases hp : risePeriods (sortByTimestamp water_levels) > 0
  · rw [if_pos hp, totalRise_eq_consecutiveSum]
  · rw [if_neg hp]
    have h0 : risePeriods (sortByTimestamp water_levels) = 0 := by omega
    have := totalRise_eq_zero_of_risePeriods_eq_zero _ h0
    rw [totalRise_eq_consecutiveSum] at this
    rw [this]
    norm_num

/-- Witness for claim C1 at a two-reading input with a positive decrease. -/
theorem calculate_recharge_matches_sum_witness :
    (calculate_recharge [⟨0, 5⟩, ⟨1, 3⟩]).estimated_recharge =
      some (consecutivePositiveDecreaseSum (sortByTimestamp [⟨0, 5⟩, ⟨1, 3⟩]) * (15/100)) :=
  calculate_recharge_matches_sum [⟨0, 5⟩, ⟨1, 3⟩] (by norm_num)

/-- Helper: the zero-denominator guard of the source coincides with total
division on `ℚ`, where x / 0 = 0. -/
theorem guarded_div_eq_div (a b : ℚ) : (if b ≠ 0 then a / b else 0) = a / b := by
  split_ifs with h
  · rfl
  · rw [not_not.mp h, div_zero]

/-- Claim C2: with at least two readings, `analyze_trend` reports
trend_magnitude = |slope * 365.25| for the least-squares slope over the
(day-offset, depth) pairs of the sorted readings, and buckets the trend as
stable when that magnitude is below 0.1, rising when it is not and the slope
is negative, falling otherwise. -/
theorem analyze_trend_matches_ols (water_levels : List WaterLevel)
    (h : 2 ≤ water_levels.length) :
    (analyze_trend water_levels).trend_magnitude =
      |olsSlope (sortByTimestamp water_levels) * (1461/4)| ∧
    (analyze_trend water_levels).trend =
      (if |olsSlope (sortByTimestamp water_levels) * (1461/4)| < 1/10 then Trend.stable
       else if olsSlope (sortByTimestamp water_levels) < 0 then Trend.rising
       else Trend.falling) := by
  unfold analyze_trend olsSlope
  rw [if_neg (by omega : ¬ water_levels.length < 2)]
  dsimp only
  rw [guarded_div_eq_div]
  exact ⟨rfl, rfl⟩

/-- Witness for claim C2 at a two-reading input. -/
theorem analyze_trend_matches_ols_witness :
    (analyze_trend [⟨0, 1⟩, ⟨1, 2⟩]).trend_magnitude =
      |olsSlope (sortByTimestamp [⟨0, 1⟩, ⟨1, 2⟩]) * (1461/4)| ∧
    (analyze_trend [⟨0, 1⟩, ⟨1, 2⟩]).trend =
      (if |olsSlope (sortByTimestamp [⟨0, 1⟩, ⟨1, 2⟩]) * (1461/4)| < 1/10 then Trend.stable
       else if olsSlope (sortByTimestamp [⟨0, 1⟩, ⟨1, 2⟩]) < 0 then Trend.rising
       else Trend.falling) :=
  analyze_trend_matches_ols [⟨0, 1⟩, ⟨1, 2⟩] (by norm_num)

/-- Claim C9: `analyze_trend` is total; when every sorted reading has day
offset 0 from the first (so the least-squares denominator vanishes), the
slope is taken as 0 and the result is trend 'stable' with magnitude 0. -/
theorem analyze_trend_zero_denominator_stable (water_levels : List WaterLevel)
    (h : 2 ≤ water_levels.length)
    (hsame : ∀ x ∈ sortByTimestamp water_levels,
      daysDiff x.timestamp
        ((sortByTimestamp water_levels).headD default).timestamp = 0) :
    analyze_trend water_levels = { trend := Trend.stable, trend_magnitude := 0 } := by
  unfold analyze_trend
  rw [if_neg (by omega : ¬ water_levels.length < 2)]
  set L := sortByTimestamp water_levels with hL
  dsimp only
  set times := L.map (fun wl =>
    ((daysDiff wl.timestamp (L.headD default).timestamp : ℤ) : ℚ)) with htimes
  have hmem : ∀ t ∈ times, t = 0 := by
    intro t ht
    rw [htimes, List.mem_map] at ht
    obtain ⟨x, hx, rfl⟩ := ht
    rw [hsame x hx]
    norm_num
  have hst : times.sum = 0 := List.sum_eq_zero hmem
  have hst2 : (times.map (fun t => t * t)).sum = 0 := by
    apply List.sum_eq_zero
    intro x hx
    rw [List.mem_map] at hx
    obtain ⟨t, ht, rfl⟩ := hx
    rw [hmem t ht]
    ring
  have hstd : ((times.zip (L.map (fun wl => wl.depth))).map
      (fun p => p.1 * p.2)).sum = 0 := by
    apply List.sum_eq_zero
    intro x hx
    rw [List.mem_map] at hx
    obtain ⟨p, hp, rfl⟩ := hx
    rw [hmem p.1 (List.of_mem_zip hp).1]
    ring
  rw [hst, hst2, hstd]
  norm_num

/-- Witness for claim C9: two readings half a day apart, same day offset. -/
theorem analyze_trend_zero_denominator_stable_witness :
    analyze_trend [⟨0, 5⟩, ⟨1/2, 7⟩] =
      { trend := Trend.stable, trend_magnitude := 0 } :=
  analyze_trend_zero_denominator_stable [⟨0, 5⟩, ⟨1/2, 7⟩] (by norm_num)
    (by
      intro x hx
      norm_num [sortByTimestamp, List.insertionSort, List.orderedInsert,
        List.headD] at hx ⊢
      rcases hx with rfl | rfl <;> norm_num [daysDiff])

/-- Helper: `update_or_create` never changes the key of an existing row and
only appends a row whose key is absent, so key-uniqueness is preserved. -/
theorem update_or_create_preserves_unique (db : List WLRow)
    (station_code : String) (ts depth : ℚ) (elev : Option ℚ)
    (h : uniquePerStationTimestamp db) :
    uniquePerStationTimestamp
      (update_or_create db station_code ts depth elev).1 := by
  unfold uniquePerStationTimestamp at h ⊢
  unfold update_or_create
  split
  · show (List.map rowKey (db.map (fun x =>
      if x.station = station_code ∧ x.timestamp = ts then applyDefaults depth elev x
      else x))).Nodup
    rw [List.map_map]
    have hmap : (rowKey ∘ fun x =>
        if x.station = station_code ∧ x.timestamp = ts then applyDefaults depth elev x
        else x) = rowKey := by
      funext x
      by_cases hx : x.station = station_code ∧ x.timestamp = ts
      · simp only [Function.comp_apply, if_pos hx]
        rfl
      · simp only [Function.comp_apply, if_neg hx]
    rw [hmap]
    exact h
  · rename_i hex
    show (List.map rowKey (db ++ [newRow station_code ts depth elev])).Nodup
    rw [List.map_append, List.nodup_append]
    refine ⟨h, List.nodup_singleton _, ?_⟩
    intro k hk hk2
    rw [List.mem_map] at hk
    obtain ⟨x, hx, rfl⟩ := hk
    simp only [List.map_cons, List.map_nil, List.mem_singleton] at hk2
    simp only [rowKey, newRow, Prod.mk.injEq] at hk2
    exact hex ⟨x, hx, hk2⟩

/-- Claim C7: `sync_water_levels` preserves the unique-per-(station,
timestamp) invariant of the water-level table: starting from any database
satisfying it, every batch leaves it satisfied, because each record either
updates the existing row for its key or creates a row for a fresh key. -/
theorem sync_water_levels_preserves_unique (db : List WLRow)
    (station : Station) (water_level_data : List WLData)
    (h : uniquePerStationTimestamp db) :
    uniquePerStationTimestamp
      (sync_water_levels db station water_level_data).1 := by
  unfold sync_water_levels
  suffices H : ∀ acc : List WLRow × ℕ, uniquePerStationTimestamp acc.1 →
      uniquePerStationTimestamp
        ((water_level_data.foldl (syncStep station) acc)).1 from H (db, 0) h
  induction water_level_data with
  | nil =>
    intro acc hacc
    exact hacc
  | cons a tl ih =>
    intro acc hacc
    rw [List.foldl_cons]
    apply ih
    unfold syncStep
    dsimp only
    exact update_or_create_preserves_unique _ _ _ _ _ hacc

/-- Witness for claim C7: a nonempty database and a batch containing two
records with the same timestamp. -/
theorem sync_water_levels_preserves_unique_witness :
    uniquePerStationTimestamp
      (sync_water_levels [⟨"STN1000", 3, 9, none, "CGWB_API"⟩]
        ⟨"STN1001", none, some 100⟩ [⟨0, 5⟩, ⟨0, 6⟩, ⟨1, 7⟩]).1 :=
  sync_water_levels_preserves_unique _ _ _
    (by norm_num [uniquePerStationTimestamp])

end GroundWater
